import Mathlib

/-!
Shallow embedding of the resilient delivery engine of the eventapp
repository and proofs about it: the email fallback chain
(`RobustEmailService.sendEmail` and the provider services it calls), the
reference-image upload cascade (`QuotationRequestService.uploadBase64Images`
together with `QuotationRequestService.uploadWithTimeout`), and the
quotation-creation path `QuotationRequestService.create`.

Conventions of the embedding:
* a JavaScript promise as observed by a single `await` is a
  `PromiseOutcome`: it resolves with a value, rejects, or never settles;
* a thrown exception that crosses a method boundary is `StratOutcome.threw`
  (the chain executor catches it); an `await` on a never-settling promise
  makes the whole surrounding call hang, which surfaces as `none` / a lost
  tail of the result;
* `console.log` is modelled as infallible (Node never raises from it), so
  the pure logging services always return `true`;
* ambient `Date.now()` / `Math.random()` draws are passed in explicitly as
  a `now : Nat` and a `rand : String`.
-/

namespace EventApp

/-- Settled result of a promise: the two ways an `await` can finish. -/
inductive Settled (α : Type) where
  | resolved (v : α)
  | rejected (msg : String)
deriving DecidableEq, Repr

/-- Observable behavior of a promise handed to the engine: it resolves with
a value, rejects with an error, or never settles at all. -/
inductive PromiseOutcome (α : Type) where
  | resolved (v : α)
  | rejected (msg : String)
  | pending
deriving DecidableEq, Repr

/-- JavaScript string truthiness check plus `.trim()`, used by
`uploadBase64Images` when deciding whether to keep a URL.  Trimming is
modelled on the character list (drop ASCII whitespace from both ends),
matching what `String.prototype.trim` does on the URLs involved. -/
def isWhitespaceChar (c : Char) : Bool :=
  c = ' ' || c = '\t' || c = '\n' || c = '\r'

def jsTrim (s : String) : String :=
  ⟨(((s.data.dropWhile isWhitespaceChar).reverse).dropWhile isWhitespaceChar).reverse⟩

/-- The regex test of `uploadBase64Images` (part_001 line 678):
`base64Image.match(/^data:image\/(png|jpeg|jpg);base64,(.+)$/)`.
Returns the extension and the base64 payload when the string has the shape
`data:image/EXT;base64,PAYLOAD` with a non-empty payload.  (The one-character
difference of `.` not matching a newline is irrelevant to the claims and is
elided.) -/
def matchExt (s ext : String) : Option (String × String) :=
  let pre := "data:image/" ++ ext ++ ";base64,"
  if pre.data.isPrefixOf s.data then
    if pre.data.length < s.data.length then
      some (ext, ⟨s.data.drop pre.data.length⟩)
    else none
  else none

def parseDataImage (s : String) : Option (String × String) :=
  match matchExt s "png" with
  | some r => some r
  | none =>
    match matchExt s "jpeg" with
    | some r => some r
    | none => matchExt s "jpg"

/-- `QuotationRequestService.uploadWithTimeout` (part_001 lines 649-659):
`Promise.race([uploadPromise, reject after timeoutMs])`.  A promise that
never settles loses the race against the timer, so the race always settles:
the pending case becomes the timer rejection. -/
def QuotationRequestService.uploadWithTimeout {α : Type}
    (p : PromiseOutcome α) (timeoutMs : Nat) : Settled α :=
  match p with
  | PromiseOutcome.resolved v => Settled.resolved v
  | PromiseOutcome.rejected m => Settled.rejected m
  | PromiseOutcome.pending =>
      Settled.rejected ("Upload timeout after " ++ toString timeoutMs ++ "ms")

/-- One reference image together with the behavior its upload attempts would
observe: the raw input string, the Supabase upload outcome for the
`profiles` and `uploads` buckets, and the AWS S3 upload outcome (the S3
`Location` field, possibly the empty string). -/
structure ImageAttempt where
  image : String
  profiles : PromiseOutcome String
  uploads : PromiseOutcome String
  s3 : PromiseOutcome String
deriving DecidableEq, Repr

/-- The two configuration bits `uploadBase64Images` branches on:
`process.env.NODE_ENV === 'local'` and
`awsConfig && awsConfig.bucketName && awsConfig.bucketFolderName`. -/
structure UploadConfig where
  nodeEnvLocal : Bool
  hasAwsConfig : Bool
deriving DecidableEq, Repr

/-- The Supabase bucket loop of `uploadBase64Images` (part_001 lines
699-723 and 729-753): for each bucket in order, await the guarded upload;
a truthy `publicUrl` sets the image URL and breaks, anything else falls
through to the next bucket.  Returns the URL found (if any) and the list of
bucket attempts actually made, in order. -/
def QuotationRequestService.tryBuckets :
    List (String × PromiseOutcome String) →
      Option String × List (String × PromiseOutcome String)
  | [] => (none, [])
  | (name, p) :: rest =>
    match QuotationRequestService.uploadWithTimeout p 30000 with
    | Settled.resolved publicUrl =>
      if publicUrl ≠ "" then (some publicUrl, [(name, p)])
      else
        match QuotationRequestService.tryBuckets rest with
        | (r, t) => (r, (name, p) :: t)
    | Settled.rejected _ =>
      match QuotationRequestService.tryBuckets rest with
      | (r, t) => (r, (name, p) :: t)

/-- Result of processing one image: the surrounding call hangs (an unguarded
`await` never settles), or it finishes with the `imageUrl` variable, which is
the empty string when every upload failed. -/
inductive ImgResult where
  | hang
  | done (imageUrl : String)
deriving DecidableEq, Repr

/-- Events observable from outside a chain walk: an upload/strategy attempt
against a named target, or an inter-attempt sleep. -/
inductive Ev where
  | attempt (imageIdx : Nat) (target : String)
  | sleep (ms : Nat)
deriving DecidableEq, Repr

/-- The per-image body of `uploadBase64Images` after the regex parse
(part_001 lines 693-783): try the Supabase buckets `profiles` then
`uploads`; in the local branch stop there, in the production branch fall
back to one unguarded AWS S3 attempt when configured.  Returns the names of
the targets attempted and the resulting `imageUrl` (empty on total
failure); a never-settling S3 promise hangs the call since that `await` has
no timeout wrapper. -/
def QuotationRequestService.processImage (cfg : UploadConfig)
    (att : ImageAttempt) : List String × ImgResult :=
  let buckets := [("profiles", att.profiles), ("uploads", att.uploads)]
  match QuotationRequestService.tryBuckets buckets with
  | (res, tried) =>
    let names := tried.map Prod.fst
    match res with
    | some u => (names, ImgResult.done u)
    | none =>
      if cfg.nodeEnvLocal then (names, ImgResult.done "")
      else if cfg.hasAwsConfig then
        match att.s3 with
        | PromiseOutcome.pending => (names ++ ["s3"], ImgResult.hang)
        | PromiseOutcome.resolved loc => (names ++ ["s3"], ImgResult.done loc)
        | PromiseOutcome.rejected _ => (names ++ ["s3"], ImgResult.done "")
      else (names, ImgResult.done "")

/-- The main loop of `uploadBase64Images` (part_001 lines 668-808), with the
original index threading: skip falsy or non-matching images (no delay in
those `continue` paths), process the rest, push a truthy trimmed URL, and
sleep 500 ms when `imageIndex < base64Images.length`.  Returns the event
trace and `some` collected URLs, or `none` past the point where an
unguarded await hung. -/
def QuotationRequestService.uploadLoop (cfg : UploadConfig) (n : Nat) :
    Nat → List ImageAttempt → List Ev × Option (List String)
  | _, [] => ([], some [])
  | i, att :: rest =>
    if att.image = "" then QuotationRequestService.uploadLoop cfg n (i + 1) rest
    else
      match parseDataImage att.image with
      | none => QuotationRequestService.uploadLoop cfg n (i + 1) rest
      | some _ =>
        match QuotationRequestService.processImage cfg att with
        | (names, ImgResult.hang) => (names.map (Ev.attempt i), none)
        | (names, ImgResult.done u) =>
          let evs := names.map (Ev.attempt i)
          let pushed : List String :=
            if u ≠ "" ∧ jsTrim u ≠ "" then [u] else []
          let delayEvs : List Ev := if i + 1 < n then [Ev.sleep 500] else []
          match QuotationRequestService.uploadLoop cfg n (i + 1) rest with
          | (evs2, none) => (evs ++ delayEvs ++ evs2, none)
          | (evs2, some urls) => (evs ++ delayEvs ++ evs2, some (pushed ++ urls))

/-- `QuotationRequestService.uploadBase64Images` (part_001 lines 661-820):
run the loop, then apply the final safety filter
`uploadedUrls.filter(url => url && url.trim() !== '')`. -/
def QuotationRequestService.uploadBase64Images (cfg : UploadConfig)
    (imgs : List ImageAttempt) : List Ev × Option (List String) :=
  match QuotationRequestService.uploadLoop cfg imgs.length 0 imgs with
  | (evs, none) => (evs, none)
  | (evs, some urls) =>
      (evs, some (urls.filter (fun u => decide (u ≠ "" ∧ jsTrim u ≠ ""))))

/-- The URL that one input image contributes to the result of
`uploadBase64Images`: `none` when the image is skipped or its upload fails,
`some u` when a truthy trimmed URL was obtained. -/
def QuotationRequestService.pushedUrl (cfg : UploadConfig)
    (att : ImageAttempt) : Option String :=
  if att.image = "" then none
  else
    match parseDataImage att.image with
    | none => none
    | some _ =>
      match (QuotationRequestService.processImage cfg att).2 with
      | ImgResult.hang => none
      | ImgResult.done u =>
        if u ≠ "" ∧ jsTrim u ≠ "" then some u else none

/-- Whether one input image reaches the processing body (is neither falsy
nor rejected by the regex), i.e. whether its iteration can emit the 500 ms
inter-image sleep. -/
def processedP (att : ImageAttempt) : Bool :=
  (att.image != "") && (parseDataImage att.image).isSome

/-- Number of sleep events in a trace. -/
def sleepCount (evs : List Ev) : Nat :=
  evs.countP (fun e => match e with | Ev.sleep _ => true | _ => false)

def isAttemptEv : Ev → Bool
  | Ev.attempt _ _ => true
  | _ => false

/-- Whether every two consecutive attempt events of a trace have something
(a sleep) between them: the formal reading of a pause separating
consecutive attempts. -/
def pauseSeparated : List Ev → Bool
  | a :: b :: rest => (!(isAttemptEv a && isAttemptEv b)) && pauseSeparated (b :: rest)
  | _ => true

/-- Outcome of awaiting one email strategy thunk inside
`RobustEmailService.sendEmail`: the promise resolves to a boolean, rejects
(the strategy threw), or never settles. -/
inductive StratOutcome where
  | resolved (b : Bool)
  | threw
  | pending
deriving DecidableEq, Repr

/-- The strategy loop of `RobustEmailService.sendEmail` (part_003 lines
44-58): try each strategy in order, return `true` at the first strategy that
resolves truthy, swallow a rejection and continue, return `false` after the
loop.  Result is `none` when an awaited strategy never settles (the loop
hangs there); the second component is the list of strategies actually
attempted, in order. -/
def runChain : List StratOutcome → Option Bool × List StratOutcome
  | [] => (some false, [])
  | o :: rest =>
    match o with
    | StratOutcome.pending => (none, [StratOutcome.pending])
    | StratOutcome.resolved true => (some true, [StratOutcome.resolved true])
    | StratOutcome.resolved false =>
      match runChain rest with
      | (r, t) => (r, StratOutcome.resolved false :: t)
    | StratOutcome.threw =>
      match runChain rest with
      | (r, t) => (r, StratOutcome.threw :: t)

/-- `RobustEmailService.tryConsoleLog` (part_003 lines 242-258): a handful of
`console.log` calls and `return true`; it never fails. -/
def RobustEmailService.tryConsoleLog : StratOutcome := StratOutcome.resolved true

/-- The email chain as the executor sees it: the configured strategies in
priority order with the guaranteed console-logging strategy appended last
(part_003 lines 33-42). -/
def RobustEmailService.sendEmailChain (real : List StratOutcome) :
    Option Bool × List StratOutcome :=
  runChain (real ++ [RobustEmailService.tryConsoleLog])

/-- Attempt-event view of the email loop: one attempt event per attempted
strategy and nothing else — the loop body contains no sleep between
strategies. -/
def emailEvents (l : List StratOutcome) : List Ev :=
  (runChain l).2.enum.map (fun p => Ev.attempt p.1 "strategy")

/-- The identifier a logging email service builds into its `emailData.id`
template, e.g. `` railway_email_${Date.now()}_${Math.random()...} ``:
the service-specific label together with the timestamp and random draws. -/
structure EmailLogId where
  label : String
  now : Nat
  rand : String
deriving DecidableEq, Repr

/-- `ResendEmailService.logEmailFallback` (part_002 lines 113-150): builds an
`emailData` record with id label `resend_fallback`, logs it, returns
`true`. -/
def ResendEmailService.logEmailFallback (now : Nat) (rand : String) :
    Bool × List EmailLogId :=
  (true, [{ label := "resend_fallback", now := now, rand := rand }])

/-- Result of `resendClient.emails.send`: a data/ok response, a response
with the `error` field set, or a thrown error. -/
inductive ResendSendOutcome where
  | ok
  | errorField
  | threw
deriving DecidableEq, Repr

/-- Configuration and provider behavior visible to `ResendEmailService`:
`apiKey = none` models a falsy `RESEND_API_KEY`/config key (and hence an
undefined `resendClient`). -/
structure ResendEnv where
  apiKey : Option String
  sendOutcome : ResendSendOutcome
deriving DecidableEq, Repr

/-- `ResendEmailService.sendEmail` (part_002 lines 70-111): with no API key
or client it returns via `logEmailFallback`; with a client it returns `true`
on success and falls back to `logEmailFallback` on an `error` field or a
thrown error.  Every path returns a boolean (the catch-all returns the
fallback result), paired with the ids generated along the way. -/
def ResendEmailService.sendEmail (env : ResendEnv) (now : Nat) (rand : String)
    (_toAddr _subject _text : String) : Bool × List EmailLogId :=
  match env.apiKey with
  | none => ResendEmailService.logEmailFallback now rand
  | some _ =>
    match env.sendOutcome with
    | ResendSendOutcome.ok => (true, [])
    | ResendSendOutcome.errorField => ResendEmailService.logEmailFallback now rand
    | ResendSendOutcome.threw => ResendEmailService.logEmailFallback now rand

/-- Configuration and fetch behavior visible to
`RobustEmailService.trySendGridAPI`. -/
inductive FetchOutcome where
  | ok
  | notOk
  | threw
  | pending
deriving DecidableEq, Repr

structure SendGridEnv where
  apiKey : Option String
  fromEmail : Option String
  fetchOutcome : FetchOutcome
deriving DecidableEq, Repr

/-- `RobustEmailService.trySendGridAPI` (part_003 lines 260-322): missing
API key or from-address throws `SendGrid API credentials not configured`;
otherwise the outcome follows the unguarded `fetch`: `response.ok` returns
`true`, a non-ok response throws, a thrown fetch rethrows, and a
never-settling fetch hangs. -/
def RobustEmailService.trySendGridAPI (env : SendGridEnv)
    (_toAddr _subject _text : String) : StratOutcome :=
  match env.apiKey, env.fromEmail with
  | some _, some _ =>
    match env.fetchOutcome with
    | FetchOutcome.ok => StratOutcome.resolved true
    | FetchOutcome.notOk => StratOutcome.threw
    | FetchOutcome.threw => StratOutcome.threw
    | FetchOutcome.pending => StratOutcome.pending
  | _, _ => StratOutcome.threw

/-- Configuration and transport behavior visible to
`RobustEmailService.tryGmailSMTP`: the credentials and, for each of the
three fixed SMTP configurations (ports 587, 465, 2525), whether its
verify-and-send attempt succeeds (nodemailer enforces its own connection
timeouts, so each attempt settles). -/
structure GmailEnv where
  smtpUser : Option String
  smtpPass : Option String
  config587 : Bool
  config465 : Bool
  config2525 : Bool
deriving DecidableEq, Repr

/-- `RobustEmailService.tryGmailSMTP` (part_003 lines 106-210): missing SMTP
user or password throws `Gmail SMTP credentials not configured`; otherwise
the three configurations are tried in order, the first success returns
`true`, and if all fail it throws `All Gmail SMTP configurations failed`. -/
def RobustEmailService.tryGmailSMTP (env : GmailEnv)
    (_toAddr _subject _text : String) : StratOutcome :=
  match env.smtpUser, env.smtpPass with
  | some _, some _ =>
    if env.config587 || env.config465 || env.config2525 then
      StratOutcome.resolved true
    else StratOutcome.threw
  | _, _ => StratOutcome.threw

/-- `RailwayDirectEmailService.sendEmail` (part_003 lines 331-393): builds an
`emailData` record with id label `railway_direct`, logs it, returns
`true`. -/
def RailwayDirectEmailService.sendEmail (now : Nat) (rand : String)
    (_toAddr _subject _text : String) : Bool × List EmailLogId :=
  (true, [{ label := "railway_direct", now := now, rand := rand }])

/-- `RailwayEmailService.sendEmail` (part_002 lines 8-53): builds an
`emailData` record with id label `railway_email`, logs it, returns
`true`. -/
def RailwayEmailService.sendEmail (now : Nat) (rand : String)
    (_toAddr _subject _text : String) : Bool × List EmailLogId :=
  (true, [{ label := "railway_email", now := now, rand := rand }])

/-- `WebhookEmailService.sendEmailViaWebhook`
(webhook-email.service.ts lines 8-52): builds an `emailData` record with id
label `email`, logs it, returns `true`. -/
def WebhookEmailService.sendEmailViaWebhook (now : Nat) (rand : String)
    (_toAddr _subject _text : String) : Bool × List EmailLogId :=
  (true, [{ label := "email", now := now, rand := rand }])

/-- The whole environment `RobustEmailService.sendEmail` runs in.  The
`SmtpOnlyEmailService` source is not under src, so its strategy outcome is
kept abstract. -/
structure EmailEnv where
  resend : ResendEnv
  sendGrid : SendGridEnv
  gmail : GmailEnv
  smtpOnly : StratOutcome
deriving DecidableEq, Repr

/-- The email strategy loop again, now over strategies paired with the ids
their execution generates: returns the settled result, the number of
strategies attempted, and the ids generated by the attempted strategies. -/
def runChainIds : List (StratOutcome × List EmailLogId) →
    Option Bool × Nat × List EmailLogId
  | [] => (some false, 0, [])
  | (o, ids) :: rest =>
    match o with
    | StratOutcome.pending => (none, 1, ids)
    | StratOutcome.resolved true => (some true, 1, ids)
    | StratOutcome.resolved false =>
      match runChainIds rest with
      | (r, k, acc) => (r, k + 1, ids ++ acc)
    | StratOutcome.threw =>
      match runChainIds rest with
      | (r, k, acc) => (r, k + 1, ids ++ acc)

/-- The concrete strategies list of `RobustEmailService.sendEmail`
(part_003 lines 33-42), in the configured priority order. -/
def RobustEmailService.strategies (env : EmailEnv) (now : Nat) (rand : String)
    (toAddr subject text : String) : List (StratOutcome × List EmailLogId) :=
  [ (StratOutcome.resolved (ResendEmailService.sendEmail env.resend now rand toAddr subject text).1,
     (ResendEmailService.sendEmail env.resend now rand toAddr subject text).2),
    (RobustEmailService.trySendGridAPI env.sendGrid toAddr subject text, []),
    (RobustEmailService.tryGmailSMTP env.gmail toAddr subject text, []),
    (env.smtpOnly, []),
    (StratOutcome.resolved (RailwayDirectEmailService.sendEmail now rand toAddr subject text).1,
     (RailwayDirectEmailService.sendEmail now rand toAddr subject text).2),
    (StratOutcome.resolved (RailwayEmailService.sendEmail now rand toAddr subject text).1,
     (RailwayEmailService.sendEmail now rand toAddr subject text).2),
    (StratOutcome.resolved (WebhookEmailService.sendEmailViaWebhook now rand toAddr subject text).1,
     (WebhookEmailService.sendEmailViaWebhook now rand toAddr subject text).2),
    (RobustEmailService.tryConsoleLog, []) ]

/-- `RobustEmailService.sendEmail` (part_003 lines 25-59) over the concrete
strategies list. -/
def RobustEmailService.sendEmail (env : EmailEnv) (now : Nat) (rand : String)
    (toAddr subject text : String) : Option Bool × Nat × List EmailLogId :=
  runChainIds (RobustEmailService.strategies env now rand toAddr subject text)

/-- The fields of the quotation creation flow the claims concern. -/
structure CreateDto where
  referenceImages : List String
deriving DecidableEq, Repr

structure QuotationEntity where
  userId : String
  referenceImages : List String
  status : String
  isDeleted : Bool
deriving DecidableEq, Repr

/-- `QuotationRequestService.create` (part_001 lines 104-195), restricted to
the fields the claim concerns.  The behavior of `uploadBase64Images` on the
request images is passed as an `Except` oracle (`error` = the whole upload
chain threw) and the repository write as a `save` oracle.  The inner catch
turns an upload error into an empty `uploadedImageUrls`; the entity is then
built and saved, and a save error is wrapped by the outer catch.  Returns
the entity handed to `save` together with the overall outcome. -/
def QuotationRequestService.create (dto : CreateDto) (userId : String)
    (uploadBase64ImagesResult : Except String (List String))
    (save : QuotationEntity → Except String QuotationEntity) :
    QuotationEntity × Except String QuotationEntity :=
  let uploadedImageUrls : List String :=
    if dto.referenceImages ≠ [] then
      match uploadBase64ImagesResult with
      | Except.ok urls => urls
      | Except.error _ => []
    else []
  let entity : QuotationEntity :=
    { userId := userId, referenceImages := uploadedImageUrls,
      status := "pending", isDeleted := false }
  match save entity with
  | Except.ok savedEntity => (entity, Except.ok savedEntity)
  | Except.error msg =>
      (entity, Except.error ("Failed to create quotation request: " ++ msg))

/-- Whether one guarded Supabase bucket attempt succeeds (a truthy
`publicUrl` comes back before the 30000 ms deadline). -/
def QuotationRequestService.bucketSuccess (p : PromiseOutcome String) : Bool :=
  match QuotationRequestService.uploadWithTimeout p 30000 with
  | Settled.resolved publicUrl => publicUrl != ""
  | Settled.rejected _ => false

/-! Concrete fixtures used by witnesses and counterexamples. -/

/-- A valid image whose first bucket fails and second bucket succeeds. -/
def imgFixtureOk : ImageAttempt :=
  { image := "data:image/png;base64,AAAA",
    profiles := PromiseOutcome.rejected "err",
    uploads := PromiseOutcome.resolved "https://x/u.png",
    s3 := PromiseOutcome.rejected "s3err" }

/-- An input string the data-image regex rejects. -/
def imgFixtureInvalid : ImageAttempt :=
  { image := "notanimage",
    profiles := PromiseOutcome.resolved "unused",
    uploads := PromiseOutcome.resolved "unused",
    s3 := PromiseOutcome.resolved "unused" }

/-- A valid image on which every upload target fails. -/
def imgFixtureFail : ImageAttempt :=
  { image := "data:image/jpeg;base64,BBBB",
    profiles := PromiseOutcome.rejected "e1",
    uploads := PromiseOutcome.rejected "e2",
    s3 := PromiseOutcome.rejected "e3" }

/-- A valid image whose guarded Supabase uploads fail or time out and whose
unguarded S3 upload never settles. -/
def imgFixtureHang : ImageAttempt :=
  { image := "data:image/jpg;base64,CCCC",
    profiles := PromiseOutcome.rejected "e1",
    uploads := PromiseOutcome.pending,
    s3 := PromiseOutcome.pending }

/-- Production configuration with AWS configured. -/
def cfgFixtureProd : UploadConfig := { nodeEnvLocal := false, hasAwsConfig := true }

/-- Email environment with no Resend API key and nothing else configured. -/
def envFixtureNoKey : EmailEnv :=
  { resend := { apiKey := none, sendOutcome := ResendSendOutcome.threw },
    sendGrid := { apiKey := none, fromEmail := none, fetchOutcome := FetchOutcome.threw },
    gmail := { smtpUser := none, smtpPass := none,
               config587 := false, config465 := false, config2525 := false },
    smtpOnly := StratOutcome.threw }

/-- The entity `create` builds when every upload fails. -/
def entityFixture : QuotationEntity :=
  { userId := "u1", referenceImages := [], status := "pending",
    isDeleted := false }

/-- Email environment where the Resend API key is set and the Resend send
call succeeds. -/
def envFixtureKeyOk : EmailEnv :=
  { resend := { apiKey := some "re_key", sendOutcome := ResendSendOutcome.ok },
    sendGrid := { apiKey := none, fromEmail := none, fetchOutcome := FetchOutcome.threw },
    gmail := { smtpUser := none, smtpPass := none,
               config587 := false, config465 := false, config2525 := false },
    smtpOnly := StratOutcome.threw }

/-! Helper lemmas shared by the claim theorems. -/

/-- The email loop walks any run of non-successful strategies and continues
on the rest of the chain, recording those attempts in order. -/
theorem runChain_append_of_fail (l r : List StratOutcome)
    (h : ∀ o ∈ l, o = StratOutcome.resolved false ∨ o = StratOutcome.threw) :
    runChain (l ++ r) = ((runChain r).1, l ++ (runChain r).2) := by
  induction l with
  | nil => rfl
  | cons o l' ih =>
    have ho := h o (by simp)
    have h' : ∀ o ∈ l', o = StratOutcome.resolved false ∨ o = StratOutcome.threw :=
      fun o hm => h o (by simp [hm])
    rcases ho with ho | ho <;> subst ho <;>
      simp [runChain, ih h']

/-- The list of strategies the email loop attempts is a prefix of the
chain. -/
theorem runChain_take (l : List StratOutcome) :
    ∃ k, (runChain l).2 = l.take k := by
  induction l with
  | nil => exact ⟨0, rfl⟩
  | cons o rest ih =>
    obtain ⟨k, hk⟩ := ih
    cases o with
    | pending => exact ⟨1, by simp [runChain]⟩
    | threw =>
      refine ⟨k + 1, ?_⟩
      rcases hR : runChain rest with ⟨r1, t1⟩
      rw [hR] at hk
      simp only [runChain, hR, List.take_succ_cons]
      simpa using hk
    | resolved b =>
      cases b with
      | true => exact ⟨1, by simp [runChain]⟩
      | false =>
        refine ⟨k + 1, ?_⟩
        rcases hR : runChain rest with ⟨r1, t1⟩
        rw [hR] at hk
        simp only [runChain, hR, List.take_succ_cons]
        simpa using hk

/-- Every attempted strategy except possibly the last one was not a
success: the email loop stops at the first success. -/
theorem runChain_dropLast_no_success (l : List StratOutcome) :
    ((runChain l).2.dropLast.all (fun o => !(o == StratOutcome.resolved true))) = true := by
  induction l with
  | nil => rfl
  | cons o rest ih =>
    cases o with
    | pending => rfl
    | threw =>
      rcases hR : runChain rest with ⟨r1, t1⟩
      rw [hR] at ih
      simp only [runChain, hR]
      cases t1 with
      | nil => rfl
      | cons b t' =>
        simp only [List.dropLast_cons₂, List.all_cons] at ih ⊢
        simpa using ih
    | resolved b =>
      cases b with
      | true => rfl
      | false =>
        rcases hR : runChain rest with ⟨r1, t1⟩
        rw [hR] at ih
        simp only [runChain, hR]
        cases t1 with
        | nil => rfl
        | cons b t' =>
          simp only [List.dropLast_cons₂, List.all_cons] at ih ⊢
          simpa using ih

/-- The bucket attempts made by the Supabase loop form a prefix of the
bucket list. -/
theorem tryBuckets_take (bl : List (String × PromiseOutcome String)) :
    ∃ k, (QuotationRequestService.tryBuckets bl).2 = bl.take k := by
  induction bl with
  | nil => exact ⟨0, rfl⟩
  | cons pr rest ih =>
    obtain ⟨name, p⟩ := pr
    obtain ⟨k, hk⟩ := ih
    rcases hs : QuotationRequestService.uploadWithTimeout p 30000 with ⟨u⟩ | ⟨m⟩
    · by_cases hu : u ≠ ""
      · exact ⟨1, by simp [QuotationRequestService.tryBuckets, hs, hu]⟩
      · refine ⟨k + 1, ?_⟩
        rcases hR : QuotationRequestService.tryBuckets rest with ⟨r1, t1⟩
        rw [hR] at hk
        simp only [QuotationRequestService.tryBuckets, hs, hu, if_neg, hR,
          List.take_succ_cons]
        simpa using hk
    · refine ⟨k + 1, ?_⟩
      rcases hR : QuotationRequestService.tryBuckets rest with ⟨r1, t1⟩
      rw [hR] at hk
      simp only [QuotationRequestService.tryBuckets, hs, hR, List.take_succ_cons]
      simpa using hk

/-- Every bucket attempted except possibly the last one did not succeed:
the Supabase loop breaks at the first truthy `publicUrl`. -/
theorem tryBuckets_dropLast_no_success (bl : List (String × PromiseOutcome String)) :
    ((QuotationRequestService.tryBuckets bl).2.dropLast.all
      (fun pr => !(QuotationRequestService.bucketSuccess pr.2))) = true := by
  induction bl with
  | nil => rfl
  | cons pr rest ih =>
    obtain ⟨name, p⟩ := pr
    rcases hs : QuotationRequestService.uploadWithTimeout p 30000 with ⟨u⟩ | ⟨m⟩
    · by_cases hu : u ≠ ""
      · simp [QuotationRequestService.tryBuckets, hs, hu]
      · have hu' : u = "" := by simpa using hu
        have hbs : QuotationRequestService.bucketSuccess p = false := by
          simp [QuotationRequestService.bucketSuccess, hs, hu']
        rcases hR : QuotationRequestService.tryBuckets rest with ⟨r1, t1⟩
        rw [hR] at ih
        simp only [QuotationRequestService.tryBuckets, hs, hu, ite_false, hR]
        cases t1 with
        | nil => rfl
        | cons b t' =>
          simpa [List.dropLast_cons₂, List.all_cons, hbs] using ih
    · have hbs : QuotationRequestService.bucketSuccess p = false := by
        simp [QuotationRequestService.bucketSuccess, hs]
      rcases hR : QuotationRequestService.tryBuckets rest with ⟨r1, t1⟩
      rw [hR] at ih
      simp only [QuotationRequestService.tryBuckets, hs, hR]
      cases t1 with
      | nil => rfl
      | cons b t' =>
        simpa [List.dropLast_cons₂, List.all_cons, hbs] using ih

/-- `ResendEmailService.sendEmail` returns `true` on every path (success,
`error` field, thrown error, missing key): the logging fallback is its own
catch-all. -/
theorem resend_sendEmail_fst (env : ResendEnv) (now : Nat) (rand : String)
    (t s x : String) : (ResendEmailService.sendEmail env now rand t s x).1 = true := by
  rcases env with ⟨key, so⟩
  cases key <;> cases so <;> rfl

/-- Because the first strategy always resolves truthy, the concrete email
chain always returns `true` after exactly one attempt, carrying exactly the
ids the Resend strategy generated. -/
theorem robust_sendEmail_eq (env : EmailEnv) (now : Nat) (rand : String)
    (t s x : String) :
    RobustEmailService.sendEmail env now rand t s x =
      (some true, 1, (ResendEmailService.sendEmail env.resend now rand t s x).2) := by
  have h1 := resend_sendEmail_fst env.resend now rand t s x
  simp [RobustEmailService.sendEmail, RobustEmailService.strategies, runChainIds, h1]

/-- Projecting one image out of the upload loop: the `Option String` it
contributes to the final URL list. -/
theorem pushedUrl_some {cfg : UploadConfig} {att : ImageAttempt} {u : String}
    (h : QuotationRequestService.pushedUrl cfg att = some u) :
    u ≠ "" ∧ jsTrim u ≠ "" := by
  by_cases h1 : att.image = ""
  · simp [QuotationRequestService.pushedUrl, h1] at h
  · cases hp : parseDataImage att.image with
    | none => simp [QuotationRequestService.pushedUrl, h1, hp] at h
    | some pr =>
      cases hq : (QuotationRequestService.processImage cfg att).2 with
      | hang => simp [QuotationRequestService.pushedUrl, h1, hp, hq] at h
      | done u0 =>
        by_cases hc : u0 ≠ "" ∧ jsTrim u0 ≠ ""
        · have hpu : QuotationRequestService.pushedUrl cfg att = some u0 := by
            simp [QuotationRequestService.pushedUrl, h1, hp, hq, hc]
          rw [hpu] at h
          injection h with h2
          exact h2 ▸ hc
        · have hpu : QuotationRequestService.pushedUrl cfg att = none := by
            simp [QuotationRequestService.pushedUrl, h1, hp, hq, hc]
          rw [hpu] at h
          exact absurd h (by simp)

/-- The upload loop, when it completes, collects exactly the in-order
`filterMap` of the per-image results. -/
theorem uploadLoop_filterMap (cfg : UploadConfig) (n : Nat) :
    ∀ (imgs : List ImageAttempt) (i : Nat) (evs : List Ev) (urls : List String),
      QuotationRequestService.uploadLoop cfg n i imgs = (evs, some urls) →
      urls = imgs.filterMap (QuotationRequestService.pushedUrl cfg) := by
  intro imgs
  induction imgs with
  | nil =>
    intro i evs urls h
    have h2 : some ([] : List String) = some urls := congrArg Prod.snd h
    injection h2 with h2
    simp [← h2]
  | cons att rest ih =>
    intro i evs urls h
    by_cases h1 : att.image = ""
    · have hpu : QuotationRequestService.pushedUrl cfg att = none := by
        simp [QuotationRequestService.pushedUrl, h1]
      rw [List.filterMap_cons, hpu]
      simp only [QuotationRequestService.uploadLoop, h1, ite_true] at h
      exact ih (i + 1) evs urls h
    · cases hp : parseDataImage att.image with
      | none =>
        have hpu : QuotationRequestService.pushedUrl cfg att = none := by
          simp [QuotationRequestService.pushedUrl, h1, hp]
        rw [List.filterMap_cons, hpu]
        simp only [QuotationRequestService.uploadLoop, h1, ite_false, hp] at h
        exact ih (i + 1) evs urls h
      | some pr =>
        rcases hq : QuotationRequestService.processImage cfg att with ⟨names, res⟩
        cases res with
        | hang =>
          simp [QuotationRequestService.uploadLoop, h1, hp, hq] at h
        | done u =>
          rcases hrec : QuotationRequestService.uploadLoop cfg n (i + 1) rest
            with ⟨evs2, o2⟩
          cases o2 with
          | none =>
            simp [QuotationRequestService.uploadLoop, h1, hp, hq, hrec] at h
          | some urls2 =>
            have hurls2 := ih (i + 1) evs2 urls2 hrec
            simp [QuotationRequestService.uploadLoop, h1, hp, hq, hrec] at h
            have hpush : QuotationRequestService.pushedUrl cfg att =
                (if u ≠ "" ∧ jsTrim u ≠ "" then some u else none) := by
              simp [QuotationRequestService.pushedUrl, h1, hp, hq]
            rw [← h.2, hurls2, List.filterMap_cons, hpush]
            by_cases hc : u ≠ "" ∧ jsTrim u ≠ ""
            · simp [hc]
            · simp [hc]

theorem sleepCount_single_sleep (ms : Nat) : sleepCount [Ev.sleep ms] = 1 := rfl

theorem sleepCount_sleep_cons (ms : Nat) (evs : List Ev) :
    sleepCount (Ev.sleep ms :: evs) = sleepCount evs + 1 := by
  simp [sleepCount, List.countP_cons]

theorem sleepCount_append (a b : List Ev) :
    sleepCount (a ++ b) = sleepCount a + sleepCount b := by
  simp [sleepCount, List.countP_append]

theorem sleepCount_map_attempt (i : Nat) (names : List String) :
    sleepCount (names.map (Ev.attempt i)) = 0 := by
  induction names with
  | nil => rfl
  | cons a l ih => simp [sleepCount, List.countP_cons, ih]

theorem sleepCount_map_pair (ps : List (Nat × StratOutcome)) :
    sleepCount (ps.map (fun p => Ev.attempt p.1 "strategy")) = 0 := by
  induction ps with
  | nil => rfl
  | cons a l ih => simp [sleepCount, List.countP_cons, ih]

/-- The upload loop emits exactly one 500 ms sleep per processed image other
than the final input image. -/
theorem uploadLoop_sleepCount (cfg : UploadConfig) (n : Nat) :
    ∀ (imgs : List ImageAttempt) (i : Nat) (evs : List Ev) (urls : List String),
      i + imgs.length = n →
      QuotationRequestService.uploadLoop cfg n i imgs = (evs, some urls) →
      sleepCount evs = imgs.dropLast.countP processedP := by
  intro imgs
  induction imgs with
  | nil =>
    intro i evs urls _ h
    simp [QuotationRequestService.uploadLoop] at h
    simp [h.1, sleepCount]
  | cons att rest ih =>
    intro i evs urls hn h
    have hn' : i + 1 + rest.length = n := by
      simpa [Nat.add_comm, Nat.add_left_comm, Nat.add_assoc] using hn
    by_cases h1 : att.image = ""
    · simp only [QuotationRequestService.uploadLoop, h1, if_pos] at h
      have hP : processedP att = false := by simp [processedP, h1]
      cases rest with
      | nil =>
        simp [QuotationRequestService.uploadLoop] at h
        simp [h.1, sleepCount]
      | cons b rest' =>
        rw [List.dropLast_cons₂, List.countP_cons, hP]
        have hres := ih (i + 1) evs urls hn' h
        simp [hres]
    · cases hp : parseDataImage att.image with
      | none =>
        simp only [QuotationRequestService.uploadLoop, h1, if_neg, hp] at h
        have hP : processedP att = false := by simp [processedP, hp]
        cases rest with
        | nil =>
          simp [QuotationRequestService.uploadLoop] at h
          simp [h.1, sleepCount]
        | cons b rest' =>
          rw [List.dropLast_cons₂, List.countP_cons, hP]
          have hres := ih (i + 1) evs urls hn' h
          simp [hres]
      | some pr =>
        rcases hq : QuotationRequestService.processImage cfg att with ⟨names, res⟩
        cases res with
        | hang =>
          simp [QuotationRequestService.uploadLoop, h1, hp, hq] at h
        | done u =>
          rcases hrec : QuotationRequestService.uploadLoop cfg n (i + 1) rest
            with ⟨evs2, o2⟩
          cases o2 with
          | none =>
            simp [QuotationRequestService.uploadLoop, h1, hp, hq, hrec] at h
          | some urls2 =>
            have hP : processedP att = true := by simp [processedP, h1, hp]
            have hrec' := ih (i + 1) evs2 urls2 hn' hrec
            simp [QuotationRequestService.uploadLoop, h1, hp, hq, hrec] at h
            cases rest with
            | nil =>
              have hn2 : i + 1 = n := by simpa using hn'
              have hlt : ¬ (i + 1 < n) := by omega
              rw [← h.1]
              simp [QuotationRequestService.uploadLoop] at hrec
              simp [sleepCount_append, sleepCount_map_attempt, hlt, hrec.1,
                sleepCount]
            | cons b rest' =>
              have hlt : i + 1 < n := by
                simp at hn'
                omega
              rw [List.dropLast_cons₂, List.countP_cons, hP, ← h.1]
              simp [sleepCount_append, sleepCount_map_attempt,
                sleepCount_single_sleep, sleepCount_sleep_cons, hlt, hrec']

/-- A bucket cascade that ends with no URL attempted every configured
bucket: each attempt resolved (the guard settles every attempt) and failed,
so whatever follows the cascade runs only after all buckets have resolved. -/
theorem tryBuckets_none_all_attempted :
    ∀ bl : List (String × PromiseOutcome String),
      (QuotationRequestService.tryBuckets bl).1 = none →
      (QuotationRequestService.tryBuckets bl).2 = bl := by
  intro bl
  induction bl with
  | nil => intro _; rfl
  | cons pr rest ih =>
    obtain ⟨name, p⟩ := pr
    intro h
    rcases hs : QuotationRequestService.uploadWithTimeout p 30000 with ⟨u⟩ | ⟨m⟩
    · by_cases hu : u ≠ ""
      · simp [QuotationRequestService.tryBuckets, hs, hu] at h
      · rcases hR : QuotationRequestService.tryBuckets rest with ⟨r1, t1⟩
        have h1 : r1 = none := by
          simpa [QuotationRequestService.tryBuckets, hs, hu, hR] using h
        have ht : t1 = rest := by
          have := ih (by rw [hR]; exact h1)
          rwa [hR] at this
        simp [QuotationRequestService.tryBuckets, hs, hu, hR, ht]
    · rcases hR : QuotationRequestService.tryBuckets rest with ⟨r1, t1⟩
      have h1 : r1 = none := by
        simpa [QuotationRequestService.tryBuckets, hs, hR] using h
      have ht : t1 = rest := by
        have := ih (by rw [hR]; exact h1)
        rwa [hR] at this
      simp [QuotationRequestService.tryBuckets, hs, hR, ht]

/-- The target list of one image: either exactly the bucket attempts (in
cascade order), or the bucket attempts followed by one final S3 attempt —
and the S3 attempt happens only when no bucket succeeded. -/
theorem processImage_targets (cfg : UploadConfig) (att : ImageAttempt) :
    (QuotationRequestService.processImage cfg att).1 =
      (QuotationRequestService.tryBuckets
        [("profiles", att.profiles), ("uploads", att.uploads)]).2.map Prod.fst ∨
    ((QuotationRequestService.processImage cfg att).1 =
      (QuotationRequestService.tryBuckets
        [("profiles", att.profiles), ("uploads", att.uploads)]).2.map Prod.fst
        ++ ["s3"] ∧
      (QuotationRequestService.tryBuckets
        [("profiles", att.profiles), ("uploads", att.uploads)]).1 = none) := by
  rcases hq : QuotationRequestService.tryBuckets
      [("profiles", att.profiles), ("uploads", att.uploads)] with ⟨res, tried⟩
  cases res with
  | some u => left; simp [QuotationRequestService.processImage, hq]
  | none =>
    cases hl : cfg.nodeEnvLocal with
    | true => left; simp [QuotationRequestService.processImage, hq, hl]
    | false =>
      cases ha : cfg.hasAwsConfig with
      | true =>
        right
        cases hs3 : att.s3 <;>
          simp [QuotationRequestService.processImage, hq, hl, ha, hs3]
      | false => left; simp [QuotationRequestService.processImage, hq, hl, ha]

/-- When a bucket succeeds, the image is done: S3 is never attempted after a
bucket success — the target list is exactly the bucket attempts. -/
theorem processImage_no_s3_after_success (cfg : UploadConfig)
    (att : ImageAttempt) (u : String)
    (h : (QuotationRequestService.tryBuckets
        [("profiles", att.profiles), ("uploads", att.uploads)]).1 = some u) :
    (QuotationRequestService.processImage cfg att).1 =
      (QuotationRequestService.tryBuckets
        [("profiles", att.profiles), ("uploads", att.uploads)]).2.map Prod.fst := by
  rcases hq : QuotationRequestService.tryBuckets
      [("profiles", att.profiles), ("uploads", att.uploads)] with ⟨res, tried⟩
  rw [hq] at h
  cases res with
  | none => exact absurd h (by simp)
  | some u0 => simp [QuotationRequestService.processImage, hq]

/-! The claim theorems. -/

/-- Claim C1: when every strategy before the guaranteed console-logging last
strategy fails or throws, `RobustEmailService.sendEmail` still returns
normally with the logged-only outcome `true` produced by the final
console-logging strategy, after attempting the whole chain in order.  The
executor has no error channel: total failure of the real providers is never
surfaced as an exception. -/
theorem c1_total_failure_logged_only (real : List StratOutcome)
    (h : ∀ o ∈ real, o = StratOutcome.resolved false ∨ o = StratOutcome.threw) :
    RobustEmailService.sendEmailChain real =
      (some true, real ++ [StratOutcome.resolved true]) := by
  unfold RobustEmailService.sendEmailChain RobustEmailService.tryConsoleLog
  rw [runChain_append_of_fail real _ h]
  rfl

/-- Witness for C1 at a concrete chain where both real strategies fail. -/
theorem c1_witness :
    RobustEmailService.sendEmailChain
        [StratOutcome.threw, StratOutcome.resolved false] =
      (some true,
        [StratOutcome.threw, StratOutcome.resolved false,
          StratOutcome.resolved true]) :=
  c1_total_failure_logged_only [StratOutcome.threw, StratOutcome.resolved false]
    (by decide)

/-- Claim C2: both executors attempt adapters strictly in configured order
and stop at the first success.  For the email loop and the Supabase bucket
loop: the attempted list is always a prefix of the configured chain, and
every attempted adapter except possibly the last one was not a success, so
nothing is ever attempted after the first success.  For the full per-image
bucket/S3 cascade: a cascade that found no URL attempted every bucket (so
everything after it runs only once all buckets have resolved), the attempted
targets of one image are the bucket attempts optionally followed by one
final S3 attempt made only when no bucket succeeded, and after a bucket
success S3 is never attempted. -/
theorem c2_sequential_first_success :
    (∀ l : List StratOutcome, ∃ k, (runChain l).2 = l.take k) ∧
    (∀ l : List StratOutcome,
      ((runChain l).2.dropLast.all
        (fun o => !(o == StratOutcome.resolved true))) = true) ∧
    (∀ bl : List (String × PromiseOutcome String),
      ∃ k, (QuotationRequestService.tryBuckets bl).2 = bl.take k) ∧
    (∀ bl : List (String × PromiseOutcome String),
      ((QuotationRequestService.tryBuckets bl).2.dropLast.all
        (fun pr => !(QuotationRequestService.bucketSuccess pr.2))) = true) ∧
    (∀ bl : List (String × PromiseOutcome String),
      (QuotationRequestService.tryBuckets bl).1 = none →
      (QuotationRequestService.tryBuckets bl).2 = bl) ∧
    (∀ (cfg : UploadConfig) (att : ImageAttempt),
      (QuotationRequestService.processImage cfg att).1 =
        (QuotationRequestService.tryBuckets
          [("profiles", att.profiles), ("uploads", att.uploads)]).2.map Prod.fst ∨
      ((QuotationRequestService.processImage cfg att).1 =
        (QuotationRequestService.tryBuckets
          [("profiles", att.profiles), ("uploads", att.uploads)]).2.map Prod.fst
          ++ ["s3"] ∧
        (QuotationRequestService.tryBuckets
          [("profiles", att.profiles), ("uploads", att.uploads)]).1 = none)) ∧
    (∀ (cfg : UploadConfig) (att : ImageAttempt) (u : String),
      (QuotationRequestService.tryBuckets
          [("profiles", att.profiles), ("uploads", att.uploads)]).1 = some u →
      (QuotationRequestService.processImage cfg att).1 =
        (QuotationRequestService.tryBuckets
          [("profiles", att.profiles), ("uploads", att.uploads)]).2.map Prod.fst) :=
  ⟨runChain_take, runChain_dropLast_no_success, tryBuckets_take,
    tryBuckets_dropLast_no_success, tryBuckets_none_all_attempted,
    processImage_targets, processImage_no_s3_after_success⟩

/-- Witness for C2 on concrete cascades: an all-failing cascade attempted
both buckets, and a cascade whose second bucket succeeded never reaches
S3. -/
theorem c2_witness :
    (QuotationRequestService.tryBuckets
        [("profiles", imgFixtureFail.profiles),
          ("uploads", imgFixtureFail.uploads)]).2 =
      [("profiles", imgFixtureFail.profiles),
        ("uploads", imgFixtureFail.uploads)] ∧
    (QuotationRequestService.processImage cfgFixtureProd imgFixtureOk).1 =
      (QuotationRequestService.tryBuckets
        [("profiles", imgFixtureOk.profiles),
          ("uploads", imgFixtureOk.uploads)]).2.map Prod.fst :=
  ⟨c2_sequential_first_success.2.2.2.2.1 _ rfl,
    c2_sequential_first_success.2.2.2.2.2.2 cfgFixtureProd imgFixtureOk
      "https://x/u.png" rfl⟩

/-- Claim C3 counterexample: the caller-visible return value of the chain is
a single boolean, so a run where the first strategy succeeded and a run
where only a later strategy succeeded are indistinguishable to the caller:
both produce `some true`.  The code therefore does not expose the
`Delivered` / `DeliveredViaFallback` / `LoggedOnly` distinction the claim
asserts. -/
theorem c3_counterexample :
    (runChain [StratOutcome.resolved true, StratOutcome.threw]).1 = some true ∧
    (runChain [StratOutcome.threw, StratOutcome.resolved true]).1 = some true ∧
    (runChain [StratOutcome.resolved true, StratOutcome.threw]).1 =
      (runChain [StratOutcome.threw, StratOutcome.resolved true]).1 :=
  ⟨rfl, rfl, rfl⟩

/-- Claim C3 amended: the caller-visible outcome is the single boolean of
`Promise<boolean>`: when no strategy hangs, the chain returns `true` exactly
when some strategy succeeded — whether the first or any fallback — so the
success position is not observable in the return value. -/
theorem c3_amended_boolean_outcome (l : List StratOutcome)
    (h : ∀ o ∈ l, o ≠ StratOutcome.pending) :
    (runChain l).1 = some true ↔ StratOutcome.resolved true ∈ l := by
  induction l with
  | nil => simp [runChain]
  | cons o rest ih =>
    have h' : ∀ o ∈ rest, o ≠ StratOutcome.pending :=
      fun o hm => h o (by simp [hm])
    cases o with
    | pending => exact absurd rfl (h _ (by simp))
    | threw =>
      rcases hR : runChain rest with ⟨r1, t1⟩
      have hrest := ih h'
      rw [hR] at hrest
      simp [runChain, hR, hrest]
    | resolved b =>
      cases b with
      | true => simp [runChain]
      | false =>
        rcases hR : runChain rest with ⟨r1, t1⟩
        have hrest := ih h'
        rw [hR] at hrest
        simp [runChain, hR, hrest]

/-- Witness for the amended C3 at a concrete fallback-success run. -/
theorem c3_witness :
    (runChain [StratOutcome.threw, StratOutcome.resolved true]).1 = some true ↔
      StratOutcome.resolved true ∈
        [StratOutcome.threw, StratOutcome.resolved true] :=
  c3_amended_boolean_outcome _ (by decide)

/-- Claim C4 counterexample: the email strategies are not invoked through
any timeout guard: a strategy whose promise never settles is realizable
(`trySendGridAPI` with a never-settling `fetch`) and makes the whole chain
hang instead of resolving as a timeout and proceeding; likewise the S3
fallback attempt of the asset chain is awaited unguarded, so a
never-settling S3 upload hangs `uploadBase64Images`. -/
theorem c4_counterexample :
    RobustEmailService.trySendGridAPI
        { apiKey := some "k", fromEmail := some "f",
          fetchOutcome := FetchOutcome.pending } "t" "s" "x" =
      StratOutcome.pending ∧
    RobustEmailService.sendEmailChain
        [StratOutcome.pending, StratOutcome.resolved true] =
      (none, [StratOutcome.pending]) ∧
    QuotationRequestService.uploadBase64Images cfgFixtureProd [imgFixtureHang] =
      ([Ev.attempt 0 "profiles", Ev.attempt 0 "uploads", Ev.attempt 0 "s3"],
        none) :=
  ⟨rfl, rfl, rfl⟩

/-- Claim C4 amended: the 30000 ms bound applies exactly to the Supabase
upload attempts of the asset chain: a never-settling Supabase upload loses
the race with the timer rejection and the bucket cascade proceeds to the
next target, while the email strategies (and the S3 fallback) are awaited
with no guard, so after any run of failing strategies a never-settling
strategy hangs the chain right there. -/
theorem c4_amended_timeout_scope :
    (∀ timeoutMs : Nat,
      QuotationRequestService.uploadWithTimeout
          (PromiseOutcome.pending : PromiseOutcome String) timeoutMs =
        Settled.rejected ("Upload timeout after " ++ toString timeoutMs ++ "ms")) ∧
    (∀ (name : String) (rest : List (String × PromiseOutcome String)),
      (QuotationRequestService.tryBuckets
          ((name, PromiseOutcome.pending) :: rest)).1 =
        (QuotationRequestService.tryBuckets rest).1) ∧
    (∀ (l r : List StratOutcome),
      (∀ o ∈ l, o = StratOutcome.resolved false ∨ o = StratOutcome.threw) →
      runChain (l ++ StratOutcome.pending :: r) =
        (none, l ++ [StratOutcome.pending])) := by
  refine ⟨fun _ => rfl, fun name rest => ?_, fun l r h => ?_⟩
  · rcases hR : QuotationRequestService.tryBuckets rest with ⟨r1, t1⟩
    simp [QuotationRequestService.tryBuckets,
      QuotationRequestService.uploadWithTimeout, hR]
  · rw [runChain_append_of_fail l _ h]
    rfl

/-- Witness for the amended C4 at a concrete chain. -/
theorem c4_witness :
    runChain ([StratOutcome.threw] ++
        StratOutcome.pending :: [StratOutcome.resolved true]) =
      (none, [StratOutcome.threw, StratOutcome.pending]) :=
  c4_amended_timeout_scope.2.2 [StratOutcome.threw] [StratOutcome.resolved true]
    (by decide)

/-- Claim C5 counterexample: `ResendEmailService.sendEmail` with no API key
does not classify the gap as a failure of that adapter: it returns `true`
through its logging fallback, and the chain takes that as success and stops
after the first strategy instead of advancing to the next adapter. -/
theorem c5_counterexample :
    ResendEmailService.sendEmail
        { apiKey := none, sendOutcome := ResendSendOutcome.threw }
        0 "r" "t" "s" "x" =
      (true, [{ label := "resend_fallback", now := 0, rand := "r" }]) ∧
    RobustEmailService.sendEmail envFixtureNoKey 0 "r" "t" "s" "x" =
      (some true, 1, [{ label := "resend_fallback", now := 0, rand := "r" }]) :=
  ⟨rfl, rfl⟩

/-- Claim C5 amended: SendGrid and Gmail SMTP do treat missing configuration
as a failure of that adapter — they throw, and the chain-level catch absorbs
the error and advances to the next strategy — but Resend with a missing API
key instead returns `true` via its internal logging fallback, which the
chain takes as success, stopping the cascade. -/
theorem c5_amended_missing_config :
    (∀ (env : GmailEnv) (t s x : String),
      env.smtpUser = none ∨ env.smtpPass = none →
      RobustEmailService.tryGmailSMTP env t s x = StratOutcome.threw) ∧
    (∀ (env : SendGridEnv) (t s x : String),
      env.apiKey = none ∨ env.fromEmail = none →
      RobustEmailService.trySendGridAPI env t s x = StratOutcome.threw) ∧
    (∀ (env : ResendEnv) (now : Nat) (rand t s x : String),
      env.apiKey = none →
      ResendEmailService.sendEmail env now rand t s x =
        (true, [{ label := "resend_fallback", now := now, rand := rand }])) ∧
    (∀ rest : List StratOutcome,
      (runChain (StratOutcome.threw :: rest)).1 = (runChain rest).1) := by
  refine ⟨?_, ?_, ?_, ?_⟩
  · intro env t s x h
    rcases env with ⟨u, p, a1, a2, a3⟩
    rcases h with h | h
    · subst h; cases p <;> rfl
    · subst h; cases u <;> rfl
  · intro env t s x h
    rcases env with ⟨k, f, fo⟩
    rcases h with h | h
    · subst h; cases f <;> rfl
    · subst h; cases k <;> rfl
  · intro env now rand t s x h
    rcases env with ⟨k, so⟩
    subst h
    rfl
  · intro rest
    rcases hR : runChain rest with ⟨r1, t1⟩
    simp [runChain, hR]

/-- Witness for the amended C5 at concrete misconfigured environments. -/
theorem c5_witness :
    RobustEmailService.tryGmailSMTP
        { smtpUser := none, smtpPass := some "p",
          config587 := true, config465 := true, config2525 := true }
        "t" "s" "x" = StratOutcome.threw ∧
    ResendEmailService.sendEmail
        { apiKey := none, sendOutcome := ResendSendOutcome.ok }
        1 "zz" "t" "s" "x" =
      (true, [{ label := "resend_fallback", now := 1, rand := "zz" }]) :=
  ⟨c5_amended_missing_config.1 _ "t" "s" "x" (Or.inl rfl),
    c5_amended_missing_config.2.2.1 _ 1 "zz" "t" "s" "x" rfl⟩

/-- Claim C6: with no Resend API key (so `resendClient` is undefined),
`ResendEmailService.sendEmail` returns `true` via its logging fallback for
every input, and consequently `RobustEmailService.sendEmail` returns `true`
after exactly one attempted strategy, never reaching SendGrid, Gmail SMTP or
any later provider. -/
theorem c6_resend_no_key_short_circuit (env : EmailEnv) (now : Nat)
    (rand t s x : String) (h : env.resend.apiKey = none) :
    ResendEmailService.sendEmail env.resend now rand t s x =
      (true, [{ label := "resend_fallback", now := now, rand := rand }]) ∧
    RobustEmailService.sendEmail env now rand t s x =
      (some true, 1,
        [{ label := "resend_fallback", now := now, rand := rand }]) := by
  have h1 : ResendEmailService.sendEmail env.resend now rand t s x =
      (true, [{ label := "resend_fallback", now := now, rand := rand }]) := by
    simp [ResendEmailService.sendEmail, ResendEmailService.logEmailFallback, h]
  refine ⟨h1, ?_⟩
  rw [robust_sendEmail_eq, h1]

/-- Witness for C6 at the concrete no-key environment. -/
theorem c6_witness :
    RobustEmailService.sendEmail envFixtureNoKey 5 "ab" "t" "s" "x" =
      (some true, 1, [{ label := "resend_fallback", now := 5, rand := "ab" }]) :=
  (c6_resend_no_key_short_circuit envFixtureNoKey 5 "ab" "t" "s" "x" rfl).2

/-- Claim C7: whenever `uploadBase64Images` completes, the returned URL list
is the in-order `filterMap` of the per-image outcomes — the same relative
order as the input images with every failed or skipped image omitted
entirely — its length never exceeds the number of input images (no
padding), and every element is a non-empty string. -/
theorem c7_url_list_order (cfg : UploadConfig) (imgs : List ImageAttempt)
    (evs : List Ev) (urls : List String)
    (h : QuotationRequestService.uploadBase64Images cfg imgs = (evs, some urls)) :
    urls = imgs.filterMap (QuotationRequestService.pushedUrl cfg) ∧
    urls.length ≤ imgs.length ∧
    ∀ u ∈ urls, u ≠ "" := by
  rcases hL : QuotationRequestService.uploadLoop cfg imgs.length 0 imgs
    with ⟨evs0, o0⟩
  cases o0 with
  | none => simp [QuotationRequestService.uploadBase64Images, hL] at h
  | some urls0 =>
    have h0 : urls0 = imgs.filterMap (QuotationRequestService.pushedUrl cfg) :=
      uploadLoop_filterMap cfg imgs.length imgs 0 evs0 urls0 hL
    simp [QuotationRequestService.uploadBase64Images, hL] at h
    have hall : ∀ u ∈ urls0,
        (!decide (u = "") && !decide (jsTrim u = "")) = true := by
      intro u hu
      rw [h0] at hu
      rcases List.mem_filterMap.mp hu with ⟨att, _, hatt⟩
      have hne := pushedUrl_some hatt
      simp [hne.1, hne.2]
    have heq : urls = urls0 := by
      rw [← h.2]
      exact List.filter_eq_self.mpr hall
    refine ⟨heq.trans h0, ?_, ?_⟩
    · rw [heq, h0]
      exact List.length_filterMap_le _ _
    · intro u hu
      rw [heq, h0] at hu
      rcases List.mem_filterMap.mp hu with ⟨att, _, hatt⟩
      exact (pushedUrl_some hatt).1

/-- Witness for C7 on a three-image input whose middle image is invalid and
whose last image fails to upload everywhere. -/
theorem c7_witness :
    (["https://x/u.png"] : List String) =
      [imgFixtureOk, imgFixtureInvalid, imgFixtureFail].filterMap
        (QuotationRequestService.pushedUrl cfgFixtureProd) ∧
    (["https://x/u.png"] : List String).length ≤
      ([imgFixtureOk, imgFixtureInvalid, imgFixtureFail] : List ImageAttempt).length ∧
    ∀ u ∈ (["https://x/u.png"] : List String), u ≠ "" :=
  c7_url_list_order cfgFixtureProd [imgFixtureOk, imgFixtureInvalid, imgFixtureFail]
    [Ev.attempt 0 "profiles", Ev.attempt 0 "uploads", Ev.sleep 500,
      Ev.attempt 2 "profiles", Ev.attempt 2 "uploads", Ev.attempt 2 "s3"]
    ["https://x/u.png"] rfl

/-- Claim C8 counterexample: the 500 ms pause does not separate consecutive
adapter attempts of the upload chain: in a completed single-image upload
whose first bucket fails, the two bucket attempts are adjacent in the event
trace with no pause between them — the delay in the source sits between
images, not between attempts. -/
theorem c8_counterexample :
    QuotationRequestService.uploadBase64Images cfgFixtureProd [imgFixtureOk] =
      ([Ev.attempt 0 "profiles", Ev.attempt 0 "uploads"],
        some ["https://x/u.png"]) ∧
    pauseSeparated [Ev.attempt 0 "profiles", Ev.attempt 0 "uploads"] = false :=
  ⟨rfl, rfl⟩

/-- Claim C8 amended: the email strategy loop emits no pause at all, while
the upload loop emits exactly one 500 ms pause after each processed image
other than the final input image — an inter-image pause on the asset chain
only, not a pause between the bucket attempts of one image. -/
theorem c8_amended_pause_policy :
    (∀ l : List StratOutcome, sleepCount (emailEvents l) = 0) ∧
    (∀ (cfg : UploadConfig) (imgs : List ImageAttempt) (evs : List Ev)
        (urls : List String),
      QuotationRequestService.uploadBase64Images cfg imgs = (evs, some urls) →
      sleepCount evs = imgs.dropLast.countP processedP) := by
  constructor
  · intro l
    unfold emailEvents
    exact sleepCount_map_pair _
  · intro cfg imgs evs urls h
    rcases hL : QuotationRequestService.uploadLoop cfg imgs.length 0 imgs
      with ⟨evs0, o0⟩
    cases o0 with
    | none => simp [QuotationRequestService.uploadBase64Images, hL] at h
    | some urls0 =>
      have hs := uploadLoop_sleepCount cfg imgs.length imgs 0 evs0 urls0
        (by simp) hL
      have hevs : evs0 = evs := by
        simp [QuotationRequestService.uploadBase64Images, hL] at h
        exact h.1
      rw [← hevs]
      exact hs

/-- Witness for the amended C8 on the three-image fixture run: one pause for
the one processed non-final image. -/
theorem c8_witness :
    sleepCount [Ev.attempt 0 "profiles", Ev.attempt 0 "uploads", Ev.sleep 500,
        Ev.attempt 2 "profiles", Ev.attempt 2 "uploads", Ev.attempt 2 "s3"] =
      ([imgFixtureOk, imgFixtureInvalid, imgFixtureFail] :
        List ImageAttempt).dropLast.countP processedP :=
  c8_amended_pause_policy.2 cfgFixtureProd
    [imgFixtureOk, imgFixtureInvalid, imgFixtureFail]
    [Ev.attempt 0 "profiles", Ev.attempt 0 "uploads", Ev.sleep 500,
      Ev.attempt 2 "profiles", Ev.attempt 2 "uploads", Ev.attempt 2 "s3"]
    ["https://x/u.png"] rfl

/-- Claim C9 counterexample: no correlation identifier is generated once per
request: for a request delivered by the first strategy (configured Resend
key, successful send) the whole chain generates no identifier at all — zero
identifiers, not exactly one shared across attempts. -/
theorem c9_counterexample :
    RobustEmailService.sendEmail envFixtureKeyOk 5 "ab" "t" "s" "x" =
      (some true, 1, []) ∧
    ((RobustEmailService.sendEmail envFixtureKeyOk 5 "ab" "t" "s" "x").2.2).length
      = 0 :=
  ⟨rfl, rfl⟩

/-- Claim C9 amended: identifiers are generated per logging attempt inside
the adapters, not once per request: a chain run generates at most one
identifier (the Resend strategy settles every chain), any identifier it
generates carries the `resend_fallback` service label with that attempt's
timestamp and random draws, and identifiers built by different logging
services are never equal because their service labels differ. -/
theorem c9_amended_per_attempt_ids :
    (∀ (env : EmailEnv) (now : Nat) (rand t s x : String),
      ((RobustEmailService.sendEmail env now rand t s x).2.2).length ≤ 1) ∧
    (∀ (env : EmailEnv) (now : Nat) (rand t s x : String),
      ∀ id ∈ (RobustEmailService.sendEmail env now rand t s x).2.2,
        id.label = "resend_fallback") ∧
    (∀ (n1 : Nat) (r1 t1 s1 x1 : String) (n2 : Nat) (r2 t2 s2 x2 : String),
      (RailwayEmailService.sendEmail n1 r1 t1 s1 x1).2 ≠
        (WebhookEmailService.sendEmailViaWebhook n2 r2 t2 s2 x2).2) := by
  refine ⟨?_, ?_, ?_⟩
  · intro env now rand t s x
    rw [robust_sendEmail_eq]
    rcases henv : env.resend with ⟨k, so⟩
    cases k <;> cases so <;>
      simp [ResendEmailService.sendEmail, ResendEmailService.logEmailFallback]
  · intro env now rand t s x id hid
    rw [robust_sendEmail_eq] at hid
    rcases henv : env.resend with ⟨k, so⟩
    rw [henv] at hid
    cases k <;> cases so <;>
      simp [ResendEmailService.sendEmail, ResendEmailService.logEmailFallback]
        at hid <;>
      simp [hid]
  · intro n1 r1 t1 s1 x1 n2 r2 t2 s2 x2 h
    simp [RailwayEmailService.sendEmail,
      WebhookEmailService.sendEmailViaWebhook] at h

/-- Witness for the amended C9: the single id of the no-key run carries the
`resend_fallback` label. -/
theorem c9_witness :
    EmailLogId.label { label := "resend_fallback", now := 5, rand := "ab" } =
      "resend_fallback" :=
  c9_amended_per_attempt_ids.2.1 envFixtureNoKey 5 "ab" "t" "s" "x"
    { label := "resend_fallback", now := 5, rand := "ab" } (by decide)

/-- Claim C10: when the whole image-upload chain throws, `create` still
builds the quotation entity with an empty `referenceImages` array and hands
it to the repository save, and when the save succeeds the caller receives
the saved entity: the primary CRUD write is never blocked or rolled back
because the upload degraded. -/
theorem c10_create_survives_upload_failure (dto : CreateDto) (userId : String)
    (err : String) (save : QuotationEntity → Except String QuotationEntity)
    (saved : QuotationEntity)
    (himgs : dto.referenceImages ≠ [])
    (hsave : save { userId := userId, referenceImages := [],
                    status := "pending", isDeleted := false } = Except.ok saved) :
    QuotationRequestService.create dto userId (Except.error err) save =
      ({ userId := userId, referenceImages := [], status := "pending",
          isDeleted := false }, Except.ok saved) := by
  simp [QuotationRequestService.create, himgs, hsave]

/-- Witness for C10 at a concrete request whose upload chain throws. -/
theorem c10_witness :
    QuotationRequestService.create
        { referenceImages := ["data:image/png;base64,AA"] } "u1"
        (Except.error "upload chain failed") Except.ok =
      (entityFixture, Except.ok entityFixture) :=
  c10_create_survives_upload_failure _ _ _ Except.ok entityFixture (by decide) rfl

end EventApp
